import Mathlib

/-!
Verification of the ai-research-agent orchestration loop.

The repository contains two variants of the same Cloudflare worker:
* `src/index.ts` — the deployed entry (`wrangler.toml` `main`), whose `askAI`
  throws on any completion failure and whose `/start` loop is bounded by the
  constant `AI_CONFIG.maxIterations = 2`;
* an unnamed alternate variant (called `V0` below), whose `askAI` catches
  provider errors and returns `{content: '', error}`, whose durable objects
  wrap the `AIResponse` record into the JSON payloads, and whose `/start`
  loop reads `maxIterations` / `confidenceThreshold` from the environment and
  adds a confidence check.

Both are embedded below over a small JSON value type.  The external OpenAI
call is abstracted as an oracle `Nat → CompResult` indexed by the number of
completion calls issued so far in the run; the credential guard at the top of
both `askAI` variants also throws (it is one of the failure modes the oracle's
`err` constructor covers).  A ghost trace (`CallSt`) records the prompts
issued, the request bodies sent to the research durable object, and call
counters; it does not influence any computed value.
-/

/-- A JavaScript `Error` value: `message` and `stack`. -/
structure JsError where
  message : String
  stack : String
deriving DecidableEq

/-- JSON values as they flow between the worker's components.  Numbers are
modelled as integers: every number the program ever stores in a payload is an
iteration counter (the confidence threshold, the only non-integer, lives in
the config, not in a payload). -/
inductive JVal where
  | null
  | bool (b : Bool)
  | num (n : Int)
  | str (s : String)
  | obj (fields : List (String × JVal))

/-- First-match lookup in a JSON object's field list. -/
def jLookup : List (String × JVal) → String → Option JVal
  | [], _ => none
  | (k, v) :: rest, key => if k = key then some v else jLookup rest key

/-- `body.key`: `none` models JavaScript `undefined` (absent key or non-object). -/
def jGet : JVal → String → Option JVal
  | .obj fs, key => jLookup fs key
  | _, _ => none

/-- `body.key` when it is a string, else `none`. -/
def jGetStr (v : JVal) (key : String) : Option String :=
  match jGet v key with
  | some (.str s) => some s
  | _ => none

/-- `body.key` when it is a number, else `none`. -/
def jGetNum (v : JVal) (key : String) : Option Int :=
  match jGet v key with
  | some (.num n) => some n
  | _ => none

/-- `body.k1.k2` when it is a string, else `none`. -/
def jGetStr2 (v : JVal) (k1 k2 : String) : Option String :=
  match jGet v k1 with
  | some w => jGetStr w k2
  | _ => none

/-- JavaScript truthiness of a possibly-undefined value (`!x` is its negation). -/
def truthy : Option JVal → Bool
  | none => false
  | some .null => false
  | some (.bool b) => b
  | some (.num n) => n != 0
  | some (.str s) => s != ""
  | some (.obj _) => true

/-- Template-literal interpolation `${x}` (JavaScript `String(x)`) for the
values that reach the prompt templates: strings pass through, `undefined`
prints as `undefined`, objects as `[object Object]`. -/
def jsString : Option JVal → String
  | none => "undefined"
  | some .null => "null"
  | some (.bool b) => if b then "true" else "false"
  | some (.num n) => toString n
  | some (.str s) => s
  | some (.obj _) => "\x5bobject Object\x5d"

/-- `(x || 0)` for the iteration field: the field is always a number or absent
in every reachable payload (a truthy non-number would instead make the `+ 1`
below concatenate strings, which never happens in a run). -/
def jsOrZero : Option JVal → Int
  | some (.num n) => n
  | _ => 0

/-- `JSON.stringify` drops object fields whose value is `undefined`; `mkObj`
builds an object from optional fields the same way, preserving field order. -/
def mkObj (fields : List (String × Option JVal)) : JVal :=
  .obj (fields.filterMap (fun p => p.2.map (fun x => (p.1, x))))

/-- Outcome of one external completion call. -/
inductive CompResult where
  | ok (text : String)
  | err (e : JsError)

/-- The external completion provider, abstracted: the `k`-th completion call
issued during one run returns `o k`. -/
def Oracle : Type := Nat → CompResult

/-- Ghost instrumentation threaded through a run: `k` counts completion calls
(it indexes the oracle), `prompts` records every prompt sent to the provider,
`bodies` records every request body sent to `ResearchFetcherDO.fetch`,
`rCalls` / `fcCalls` count the completion calls issued by the research and
fact-check stages, and `fcOk` counts the fact-check calls that returned text
(the completed fact-check passes). -/
structure CallSt where
  k : Nat
  prompts : List String
  bodies : List JVal
  rCalls : Nat
  fcCalls : Nat
  fcOk : Nat

/-- The fresh instrumentation state at the start of a run. -/
def initSt : CallSt := ⟨0, [], [], 0, 0, 0⟩

/-- Record one completion call. -/
def bump (st : CallSt) (prompt : String) : CallSt :=
  { st with k := st.k + 1, prompts := st.prompts ++ [prompt] }

/-- `src/index.ts` `askAI`: issues one completion call and rethrows any
failure unchanged (`safe` logs and rethrows; the missing-credential guard is
one of the failure modes covered by the oracle's `err`). -/
def askAI (o : Oracle) (st : CallSt) (prompt : String) :
    Except JsError String × CallSt :=
  match o st.k with
  | .ok t => (.ok t, bump st prompt)
  | .err e => (.error e, bump st prompt)

/-- The research-stage prompt template: `Research this topic: ${topic}`. -/
def researchPrompt (topicVal : Option JVal) : String :=
  "Research this topic: " ++ jsString topicVal

/-- The fact-check-stage prompt template: `Verify and improve: ${research}`. -/
def factCheckPrompt (researchVal : Option JVal) : String :=
  "Verify and improve: " ++ jsString researchVal

/-- An HTTP response: status code and JSON body. -/
structure HttpResp where
  status : Nat
  body : JVal

/-- `src/index.ts` `ResearchFetcherDO.fetch`: destructures
`{ topic, iteration = 0 }` from the request body, throws `No topic provided`
when the topic is falsy, otherwise asks the completion client with the
topic-only prompt and answers `{research, iteration}`.  A thrown error
becomes `.error` (the promise rejects into the caller). -/
def researchFetch (o : Oracle) (st0 : CallSt) (body : JVal) :
    Except JsError JVal × CallSt :=
  let st := { st0 with bodies := st0.bodies ++ [body] }
  let topicVal := jGet body "topic"
  let iterationVal := (jGet body "iteration").getD (.num 0)
  if truthy topicVal then
    match askAI o st (researchPrompt topicVal) with
    | (.ok research, st') =>
        (.ok (.obj [("research", .str research), ("iteration", iterationVal)]),
         { st' with rCalls := st'.rCalls + 1 })
    | (.error e, st') => (.error e, { st' with rCalls := st'.rCalls + 1 })
  else (.error ⟨"No topic provided", ""⟩, st)

/-- `src/index.ts` `FactCheckerDO.fetch`: asks the completion client with the
fact-check prompt; on success answers
`{research: refined, iteration: (body.iteration || 0) + 1}` with status 200,
on failure catches the error internally and answers the error payload
`{error, stack}` with status 500 — it never rejects. -/
def factCheckFetch (o : Oracle) (st : CallSt) (body : JVal) :
    HttpResp × CallSt :=
  match askAI o st (factCheckPrompt (jGet body "research")) with
  | (.ok refined, st') =>
      (⟨200, .obj [("research", .str refined),
                   ("iteration", .num (jsOrZero (jGet body "iteration") + 1))]⟩,
       { st' with fcCalls := st'.fcCalls + 1, fcOk := st'.fcOk + 1 })
  | (.error e, st') =>
      (⟨500, .obj [("error", .str e.message), ("stack", .str e.stack)]⟩,
       { st' with fcCalls := st'.fcCalls + 1 })

/-- The `while (iteration < maxIterations)` loop of `src/index.ts` `/start`,
with `fuel` passes remaining and `i` the current value of the loop counter.
Each pass sends `cur` to the research DO (a rejection aborts the whole
handler), forwards the research payload to the fact-check DO, stores its body
in `finalResult`, and rebuilds
`currentData = {topic, research: finalResult.research, iteration: i + 1}`
(`JSON.stringify` drops the `research` key when that field is `undefined`). -/
def loopGo (o : Oracle) (topicVal : Option JVal) :
    Nat → Nat → JVal → Option JVal → CallSt →
    Except JsError (Option JVal) × CallSt
  | 0, _i, _cur, finalResult, st => (.ok finalResult, st)
  | fuel + 1, i, cur, _finalResult, st =>
      match researchFetch o st cur with
      | (.error e, st') => (.error e, st')
      | (.ok researchData, st') =>
          match factCheckFetch o st' researchData with
          | (fcResp, st'') =>
              let finalResult := fcResp.body
              let cur' := mkObj [("topic", topicVal),
                                 ("research", jGet finalResult "research"),
                                 ("iteration", some (.num (i + 1)))]
              loopGo o topicVal fuel (i + 1) cur' (some finalResult) st''

/-- `src/index.ts` `app.post('/start')`: builds
`currentData = {topic: body.topic, iteration: 0}`, runs the loop
`maxIterations` times, and returns `c.json(finalResult)` (status 200; the
body is `null` when the loop never ran).  A rejection from the loop is caught
and answered as `c.json({error: error.message}, 500)`.  In the source
`maxIterations` is the constant `AI_CONFIG.maxIterations = 2`; the loop is
modelled parametrically in that constant. -/
def start (o : Oracle) (maxIterations : Nat) (body : JVal) :
    HttpResp × CallSt :=
  let topicVal := jGet body "topic"
  let cur0 := mkObj [("topic", topicVal), ("iteration", some (.num 0))]
  match loopGo o topicVal maxIterations 0 cur0 none initSt with
  | (.ok finalResult, st) => (⟨200, finalResult.getD .null⟩, st)
  | (.error e, st) => (⟨500, .obj [("error", .str e.message)]⟩, st)

/-- `AI_CONFIG.maxIterations` in `src/index.ts`. -/
def AIConfigMaxIterations : Nat := 2

/-! ### The alternate (`V0`) variant of the worker -/

/-- The `AIResponse` record of the alternate variant's `askAI`:
`{content: string, error?: string}`. -/
structure AIResponse where
  content : String
  error : Option String
deriving DecidableEq

/-- How an `AIResponse` serialises into a JSON payload (`JSON.stringify`
drops the `error` field when it is `undefined`). -/
def AIResponse.toJVal (r : AIResponse) : JVal :=
  mkObj [("content", some (.str r.content)), ("error", r.error.map .str)]

/-- The alternate variant's `askAI`: the inner `try` catches any provider
failure and returns `{content: '', error: message}` instead of rethrowing, so
this function always resolves (the missing-credential guard, which sits
outside the inner `try` and still throws, is not exercised by any claim). -/
def askAIV0 (o : Oracle) (st : CallSt) (prompt : String) :
    AIResponse × CallSt :=
  match o st.k with
  | .ok t => (⟨t, none⟩, bump st prompt)
  | .err e => (⟨"", some e.message⟩, bump st prompt)

/-- The alternate variant's `ResearchFetcherDO.fetch`: answers a 400 error
payload when the topic is falsy (instead of throwing), otherwise wraps the
whole `AIResponse` under the `research` key of a 200 response. -/
def researchFetchV0 (o : Oracle) (st0 : CallSt) (body : JVal) :
    HttpResp × CallSt :=
  let st := { st0 with bodies := st0.bodies ++ [body] }
  let topicVal := jGet body "topic"
  let iterationVal := (jGet body "iteration").getD (.num 0)
  if truthy topicVal then
    match askAIV0 o st (researchPrompt topicVal) with
    | (resp, st') =>
        (⟨200, .obj [("research", resp.toJVal), ("iteration", iterationVal)]⟩,
         { st' with rCalls := st'.rCalls + 1 })
  else (⟨400, .obj [("error", .str "No topic provided")]⟩, st)

/-- The alternate variant's `FactCheckerDO.fetch`: `askAI` never rejects, so
the surrounding `catch` is unreachable and the response is always the 200
payload `{research: refined, iteration: (body.iteration || 0) + 1}` with
`refined` the whole `AIResponse` record. -/
def factCheckFetchV0 (o : Oracle) (st : CallSt) (body : JVal) :
    HttpResp × CallSt :=
  match askAIV0 o st (factCheckPrompt (jGet body "research")) with
  | (refined, st') =>
      (⟨200, .obj [("research", refined.toJVal),
                   ("iteration", .num (jsOrZero (jGet body "iteration") + 1))]⟩,
       { st' with fcCalls := st'.fcCalls + 1,
                  fcOk := st'.fcOk + (if refined.error.isNone then 1 else 0) })

/-- The alternate variant's confidence check
`finalResult?.confidence >= config.confidenceThreshold`: JavaScript coerces
`null` to `0` and booleans to `0`/`1`; comparing `undefined` (or any value
that coerces to `NaN`) yields `false`.  No reachable payload ever carries a
`confidence` field, so the check is `false` in every run. -/
def confidencePasses (finalResult : JVal) (threshold : ℚ) : Bool :=
  match jGet finalResult "confidence" with
  | some (.num c) => decide (threshold ≤ (c : ℚ))
  | some .null => decide (threshold ≤ 0)
  | some (.bool b) => decide (threshold ≤ (if b then 1 else 0))
  | _ => false

/-- The `while` loop of the alternate variant's `/start`: the handler reads
`researchResponse.json()` without checking the status, forwards it to the
fact-check DO, rebuilds `currentData`, and then breaks when the confidence
check passes; otherwise `iteration++` and it loops.  Nothing in the loop can
reject. -/
def loopGoV0 (o : Oracle) (topicVal : Option JVal) (threshold : ℚ) :
    Nat → Nat → JVal → Option JVal → CallSt → Option JVal × CallSt
  | 0, _i, _cur, finalResult, st => (finalResult, st)
  | fuel + 1, i, cur, _finalResult, st =>
      match researchFetchV0 o st cur with
      | (rResp, st') =>
          match factCheckFetchV0 o st' rResp.body with
          | (fcResp, st'') =>
              let finalResult := fcResp.body
              let cur' := mkObj [("topic", topicVal),
                                 ("research", jGet finalResult "research"),
                                 ("iteration", some (.num (i + 1)))]
              if confidencePasses finalResult threshold then
                (some finalResult, st'')
              else
                loopGoV0 o topicVal threshold fuel (i + 1) cur' (some finalResult) st''

/-- The alternate variant's `app.post('/start')`: `maxIterations` and
`confidenceThreshold` are the values parsed from the environment
(`parseInt` / `parseFloat`); the handler answers `c.json(finalResult)` with
status 200 — `null` when the loop never ran.  No configuration validation is
performed anywhere. -/
def startV0 (o : Oracle) (maxIterations : Nat) (threshold : ℚ) (body : JVal) :
    HttpResp × CallSt :=
  let topicVal := jGet body "topic"
  let cur0 := mkObj [("topic", topicVal), ("iteration", some (.num 0))]
  match loopGoV0 o topicVal threshold maxIterations 0 cur0 none initSt with
  | (finalResult, st) => (⟨200, finalResult.getD .null⟩, st)

/-! ### Helper lemmas -/

lemma jGet_mkObj_head (key : String) (v : JVal) (rest : List (String × Option JVal)) :
    jGet (mkObj ((key, some v) :: rest)) key = some v := by
  simp [mkObj, jGet, jLookup]

lemma jGet_mkObj_cons_ne (key k : String) (hv : k ≠ key)
    (v : Option JVal) (rest : List (String × Option JVal)) :
    jGet (mkObj ((k, v) :: rest)) key = jGet (mkObj rest) key := by
  cases v <;> simp [mkObj, jGet, jLookup, hv]

lemma researchFetch_ok (o : Oracle) (f : Nat → String) (ho : ∀ k, o k = .ok (f k))
    (st : CallSt) (body : JVal) (tv iv : JVal)
    (hct : jGet body "topic" = some tv) (htv : truthy (some tv) = true)
    (hci : jGet body "iteration" = some iv) :
    researchFetch o st body =
      (.ok (.obj [("research", .str (f st.k)), ("iteration", iv)]),
       ⟨st.k + 1, st.prompts ++ [researchPrompt (some tv)], st.bodies ++ [body],
        st.rCalls + 1, st.fcCalls, st.fcOk⟩) := by
  simp [researchFetch, hct, hci, htv, askAI, ho, bump]

lemma researchFetch_err (o : Oracle) (e : JsError) (st : CallSt) (body : JVal)
    (tv : JVal) (hct : jGet body "topic" = some tv) (htv : truthy (some tv) = true)
    (ho : o st.k = .err e) :
    researchFetch o st body =
      (.error e,
       ⟨st.k + 1, st.prompts ++ [researchPrompt (some tv)], st.bodies ++ [body],
        st.rCalls + 1, st.fcCalls, st.fcOk⟩) := by
  simp [researchFetch, hct, htv, askAI, ho, bump]

lemma factCheckFetch_ok (o : Oracle) (t : String) (st : CallSt) (body : JVal)
    (ho : o st.k = .ok t) :
    factCheckFetch o st body =
      (⟨200, .obj [("research", .str t),
                   ("iteration", .num (jsOrZero (jGet body "iteration") + 1))]⟩,
       ⟨st.k + 1, st.prompts ++ [factCheckPrompt (jGet body "research")], st.bodies,
        st.rCalls, st.fcCalls + 1, st.fcOk + 1⟩) := by
  simp [factCheckFetch, askAI, ho, bump]

lemma factCheckFetch_err (o : Oracle) (e : JsError) (st : CallSt) (body : JVal)
    (ho : o st.k = .err e) :
    factCheckFetch o st body =
      (⟨500, .obj [("error", .str e.message), ("stack", .str e.stack)]⟩,
       ⟨st.k + 1, st.prompts ++ [factCheckPrompt (jGet body "research")], st.bodies,
        st.rCalls, st.fcCalls + 1, st.fcOk⟩) := by
  simp [factCheckFetch, askAI, ho, bump]

/-- Counter effect of one research fetch, for an arbitrary oracle. -/
lemma researchFetch_counts (o : Oracle) (st : CallSt) (body : JVal) :
    (researchFetch o st body).2.rCalls ≤ st.rCalls + 1 ∧
    (researchFetch o st body).2.fcCalls = st.fcCalls ∧
    (researchFetch o st body).2.fcOk = st.fcOk := by
  unfold researchFetch askAI bump
  cases h : o st.k <;> by_cases ht : truthy (jGet body "topic") <;> simp [h, ht]

/-- Counter effect of one fact-check fetch, for an arbitrary oracle. -/
lemma factCheckFetch_counts (o : Oracle) (st : CallSt) (body : JVal) :
    (factCheckFetch o st body).2.rCalls = st.rCalls ∧
    (factCheckFetch o st body).2.fcCalls = st.fcCalls + 1 ∧
    (factCheckFetch o st body).2.fcOk ≤ st.fcOk + 1 := by
  unfold factCheckFetch askAI bump
  cases h : o st.k <;> simp [h]

/-- For an arbitrary oracle, the `/start` loop of `src/index.ts` issues at
most `fuel` research-stage and at most `fuel` fact-check-stage completion
calls beyond those already recorded. -/
lemma loopGo_counts (o : Oracle) (tv : Option JVal) :
    ∀ (fuel i : Nat) (cur : JVal) (fr : Option JVal) (st : CallSt),
      (loopGo o tv fuel i cur fr st).2.rCalls ≤ st.rCalls + fuel ∧
      (loopGo o tv fuel i cur fr st).2.fcCalls ≤ st.fcCalls + fuel := by
  intro fuel
  induction fuel with
  | zero => intro i cur fr st; simp [loopGo]
  | succ n ih =>
      intro i cur fr st
      rw [loopGo]
      rcases hr : researchFetch o st cur with ⟨res, st'⟩
      have hrc := researchFetch_counts o st cur
      rw [hr] at hrc
      simp only at hrc
      cases res with
      | error e => simp only; omega
      | ok rd =>
          simp only
          rcases hf : factCheckFetch o st' rd with ⟨fcResp, st''⟩
          have hfc := factCheckFetch_counts o st' rd
          rw [hf] at hfc
          simp only at hfc
          simp only
          have := ih (i + 1)
            (mkObj [("topic", tv), ("research", jGet fcResp.body "research"),
                    ("iteration", some (.num (i + 1)))]) (some fcResp.body) st''
          omega

/-- Unfolding one all-success pass of the `src/index.ts` loop: the research
stage consumes oracle index `st.k`, the fact-check stage index `st.k + 1`,
and the loop recurses on the rebuilt `currentData`. -/
lemma loopGo_succ_ok (o : Oracle) (f : Nat → String) (ho : ∀ k, o k = .ok (f k))
    (tv : JVal) (htv : truthy (some tv) = true)
    (n i : Nat) (cur : JVal) (fr : Option JVal) (st : CallSt)
    (hct : jGet cur "topic" = some tv)
    (hci : jGet cur "iteration" = some (.num (i : Int))) :
    loopGo o (some tv) (n + 1) i cur fr st =
      loopGo o (some tv) n (i + 1)
        (.obj [("topic", tv), ("research", .str (f (st.k + 1))),
               ("iteration", .num ((i : Int) + 1))])
        (some (.obj [("research", .str (f (st.k + 1))),
               ("iteration", .num ((i : Int) + 1))]))
        ⟨st.k + 1 + 1,
         (st.prompts ++ [researchPrompt (some tv)]) ++
           [factCheckPrompt (some (.str (f st.k)))],
         st.bodies ++ [cur], st.rCalls + 1, st.fcCalls + 1, st.fcOk + 1⟩ := by
  rw [loopGo, researchFetch_ok o f ho st cur tv (.num (i : Int)) hct htv hci]
  simp only
  rw [factCheckFetch_ok o (f (st.k + 1))
    ⟨st.k + 1, st.prompts ++ [researchPrompt (some tv)], st.bodies ++ [cur],
     st.rCalls + 1, st.fcCalls, st.fcOk⟩
    (.obj [("research", .str (f st.k)), ("iteration", .num (i : Int))])
    (ho (st.k + 1))]
  simp [jGet, jLookup, jsOrZero, mkObj]

/-- One run of the `src/index.ts` loop when every completion call succeeds
and the current data carries a truthy topic and the loop counter: the loop
runs all `fuel` passes, issues exactly one research and one fact-check call
per pass, and ends with the last fact-check payload, whose `research` field
is the text of the last completion call and whose `iteration` field is the
loop counter plus the number of passes. -/
lemma loopGo_ok_spec (o : Oracle) (f : Nat → String) (ho : ∀ k, o k = .ok (f k))
    (tv : JVal) (htv : truthy (some tv) = true) :
    ∀ (fuel i : Nat) (cur : JVal) (fr : Option JVal) (st : CallSt),
      jGet cur "topic" = some tv →
      jGet cur "iteration" = some (.num (i : Int)) →
      ∃ res st',
        loopGo o (some tv) fuel i cur fr st = (.ok res, st') ∧
        st'.rCalls = st.rCalls + fuel ∧
        st'.fcCalls = st.fcCalls + fuel ∧
        st'.fcOk = st.fcOk + fuel ∧
        st'.k = st.k + 2 * fuel ∧
        (fuel = 0 → res = fr) ∧
        (1 ≤ fuel → ∃ r, res = some r ∧
          jGetStr r "research" = some (f (st.k + 2 * fuel - 1)) ∧
          jGetNum r "iteration" = some ((i : Int) + (fuel : Int))) := by
  intro fuel
  induction fuel with
  | zero =>
      intro i cur fr st hct hci
      exact ⟨fr, st, by simp [loopGo], by omega, by omega, by omega, by omega,
        fun _ => rfl, fun h => absurd h (by omega)⟩
  | succ n ih =>
      intro i cur fr st hct hci
      rw [loopGo_succ_ok o f ho tv htv n i cur fr st hct hci]
      obtain ⟨res, st', hrun, hr1, hr2, hr3, hr4, hr0, hrpos⟩ := ih (i + 1)
        (.obj [("topic", tv), ("research", .str (f (st.k + 1))),
               ("iteration", .num ((i : Int) + 1))])
        (some (.obj [("research", .str (f (st.k + 1))),
               ("iteration", .num ((i : Int) + 1))]))
        ⟨st.k + 1 + 1,
         (st.prompts ++ [researchPrompt (some tv)]) ++
           [factCheckPrompt (some (.str (f st.k)))],
         st.bodies ++ [cur], st.rCalls + 1, st.fcCalls + 1, st.fcOk + 1⟩
        (by simp [jGet, jLookup])
        (by simp [jGet, jLookup])
      refine ⟨res, st', hrun, by simp at hr1 ⊢; omega, by simp at hr2 ⊢; omega,
        by simp at hr3 ⊢; omega, by simp at hr4 ⊢; omega,
        fun h => absurd h (by omega), fun _ => ?_⟩
      rcases Nat.eq_zero_or_pos n with hn | hn
      · subst hn
        refine ⟨.obj [("research", .str (f (st.k + 1))),
          ("iteration", .num ((i : Int) + 1))], hr0 rfl, ?_, ?_⟩
        · have h2 : st.k + 2 * (0 + 1) - 1 = st.k + 1 := by omega
          rw [h2]
          simp [jGetStr, jGet, jLookup]
        · simp [jGetNum, jGet, jLookup]
      · obtain ⟨r, hres, hstr, hnum⟩ := hrpos hn
        refine ⟨r, hres, ?_, ?_⟩
        · rw [hstr]
          congr 2
          simp only
          omega
        · rw [hnum]
          congr 1
          push_cast; ring

/-- A `/start` run of `src/index.ts` with a truthy topic, every completion
call succeeding, and at least one configured iteration: status 200, exactly
`N` research and `N` fact-check calls, all fact-checks completed, final
`research` the text of the last completion call, final `iteration = N`. -/
lemma start_ok_spec (o : Oracle) (f : Nat → String) (ho : ∀ k, o k = .ok (f k))
    (tv : JVal) (htv : truthy (some tv) = true)
    (body : JVal) (hb : jGet body "topic" = some tv)
    (N : Nat) (hN : 1 ≤ N) :
    ∃ r st', start o N body = (⟨200, r⟩, st') ∧
      jGetStr r "research" = some (f (2 * N - 1)) ∧
      jGetNum r "iteration" = some (N : Int) ∧
      st'.rCalls = N ∧ st'.fcCalls = N ∧ st'.fcOk = N ∧ st'.k = 2 * N := by
  obtain ⟨res, st', hrun, hr1, hr2, hr3, hr4, _hr0, hrpos⟩ :=
    loopGo_ok_spec o f ho tv htv N 0
      (mkObj [("topic", some tv), ("iteration", some (.num 0))]) none initSt
      (by simp [mkObj, jGet, jLookup]) (by simp [mkObj, jGet, jLookup])
  obtain ⟨r, hres, hstr, hnum⟩ := hrpos hN
  subst hres
  refine ⟨r, st', ?_, ?_, ?_, ?_, ?_, ?_, ?_⟩
  · simp only [start, hb]
    rw [hrun]
    simp
  · simpa [initSt] using hstr
  · simpa [initSt] using hnum
  · simpa [initSt] using hr1
  · simpa [initSt] using hr2
  · simpa [initSt] using hr3
  · simpa [initSt] using hr4

lemma researchFetchV0_ok (o : Oracle) (f : Nat → String) (ho : ∀ k, o k = .ok (f k))
    (st : CallSt) (body : JVal) (tv iv : JVal)
    (hct : jGet body "topic" = some tv) (htv : truthy (some tv) = true)
    (hci : jGet body "iteration" = some iv) :
    researchFetchV0 o st body =
      (⟨200, .obj [("research", .obj [("content", .str (f st.k))]),
                   ("iteration", iv)]⟩,
       ⟨st.k + 1, st.prompts ++ [researchPrompt (some tv)], st.bodies ++ [body],
        st.rCalls + 1, st.fcCalls, st.fcOk⟩) := by
  simp [researchFetchV0, hct, hci, htv, askAIV0, ho, bump, AIResponse.toJVal, mkObj]

lemma factCheckFetchV0_ok (o : Oracle) (f : Nat → String) (ho : ∀ k, o k = .ok (f k))
    (st : CallSt) (body : JVal) :
    factCheckFetchV0 o st body =
      (⟨200, .obj [("research", .obj [("content", .str (f st.k))]),
                   ("iteration", .num (jsOrZero (jGet body "iteration") + 1))]⟩,
       ⟨st.k + 1, st.prompts ++ [factCheckPrompt (jGet body "research")], st.bodies,
        st.rCalls, st.fcCalls + 1, st.fcOk + 1⟩) := by
  simp [factCheckFetchV0, askAIV0, ho, bump, AIResponse.toJVal, mkObj]

/-- Unfolding one pass of the alternate variant's loop with an all-success
oracle: no reachable payload carries a `confidence` field, so the confidence
break never fires and the loop always recurses. -/
lemma loopGoV0_succ_ok (o : Oracle) (f : Nat → String) (ho : ∀ k, o k = .ok (f k))
    (tv : JVal) (htv : truthy (some tv) = true) (th : ℚ)
    (n i : Nat) (cur : JVal) (fr : Option JVal) (st : CallSt)
    (hct : jGet cur "topic" = some tv)
    (hci : jGet cur "iteration" = some (.num (i : Int))) :
    loopGoV0 o (some tv) th (n + 1) i cur fr st =
      loopGoV0 o (some tv) th n (i + 1)
        (.obj [("topic", tv),
               ("research", .obj [("content", .str (f (st.k + 1)))]),
               ("iteration", .num ((i : Int) + 1))])
        (some (.obj [("research", .obj [("content", .str (f (st.k + 1)))]),
               ("iteration", .num ((i : Int) + 1))]))
        ⟨st.k + 1 + 1,
         (st.prompts ++ [researchPrompt (some tv)]) ++
           [factCheckPrompt (some (.obj [("content", .str (f st.k))]))],
         st.bodies ++ [cur], st.rCalls + 1, st.fcCalls + 1, st.fcOk + 1⟩ := by
  rw [loopGoV0, researchFetchV0_ok o f ho st cur tv (.num (i : Int)) hct htv hci]
  simp only
  rw [factCheckFetchV0_ok o f ho
    ⟨st.k + 1, st.prompts ++ [researchPrompt (some tv)], st.bodies ++ [cur],
     st.rCalls + 1, st.fcCalls, st.fcOk⟩
    (.obj [("research", .obj [("content", .str (f st.k))]),
           ("iteration", .num (i : Int))])]
  simp [confidencePasses, jGet, jLookup, jsOrZero, mkObj]

/-- One run of the alternate variant's loop with an all-success oracle and a
truthy topic: the confidence check never passes (no payload ever carries a
`confidence` field), so the loop runs all `fuel` passes with one research and
one fact-check call each; the final payload wraps the last completion text
inside `research.content` and carries `iteration = i + fuel`. -/
lemma loopGoV0_ok_spec (o : Oracle) (f : Nat → String) (ho : ∀ k, o k = .ok (f k))
    (tv : JVal) (htv : truthy (some tv) = true) (th : ℚ) :
    ∀ (fuel i : Nat) (cur : JVal) (fr : Option JVal) (st : CallSt),
      jGet cur "topic" = some tv →
      jGet cur "iteration" = some (.num (i : Int)) →
      ∃ res st',
        loopGoV0 o (some tv) th fuel i cur fr st = (res, st') ∧
        st'.rCalls = st.rCalls + fuel ∧
        st'.fcCalls = st.fcCalls + fuel ∧
        st'.fcOk = st.fcOk + fuel ∧
        st'.k = st.k + 2 * fuel ∧
        (fuel = 0 → res = fr) ∧
        (1 ≤ fuel → ∃ r, res = some r ∧
          jGetStr2 r "research" "content" = some (f (st.k + 2 * fuel - 1)) ∧
          jGetStr r "research" = none ∧
          jGetNum r "iteration" = some ((i : Int) + (fuel : Int))) := by
  intro fuel
  induction fuel with
  | zero =>
      intro i cur fr st hct hci
      exact ⟨fr, st, by simp [loopGoV0], by omega, by omega, by omega, by omega,
        fun _ => rfl, fun h => absurd h (by omega)⟩
  | succ n ih =>
      intro i cur fr st hct hci
      rw [loopGoV0_succ_ok o f ho tv htv th n i cur fr st hct hci]
      obtain ⟨res, st', hrun, hr1, hr2, hr3, hr4, hr0, hrpos⟩ := ih (i + 1)
        (.obj [("topic", tv),
               ("research", .obj [("content", .str (f (st.k + 1)))]),
               ("iteration", .num ((i : Int) + 1))])
        (some (.obj [("research", .obj [("content", .str (f (st.k + 1)))]),
               ("iteration", .num ((i : Int) + 1))]))
        ⟨st.k + 1 + 1,
         (st.prompts ++ [researchPrompt (some tv)]) ++
           [factCheckPrompt (some (.obj [("content", .str (f st.k))]))],
         st.bodies ++ [cur], st.rCalls + 1, st.fcCalls + 1, st.fcOk + 1⟩
        (by simp [jGet, jLookup])
        (by simp [jGet, jLookup])
      refine ⟨res, st', hrun, by simp at hr1 ⊢; omega, by simp at hr2 ⊢; omega,
        by simp at hr3 ⊢; omega, by simp at hr4 ⊢; omega,
        fun h => absurd h (by omega), fun _ => ?_⟩
      rcases Nat.eq_zero_or_pos n with hn | hn
      · subst hn
        refine ⟨.obj [("research", .obj [("content", .str (f (st.k + 1)))]),
          ("iteration", .num ((i : Int) + 1))], hr0 rfl, ?_, ?_, ?_⟩
        · have h2 : st.k + 2 * (0 + 1) - 1 = st.k + 1 := by omega
          rw [h2]
          simp [jGetStr2, jGetStr, jGet, jLookup]
        · simp [jGetStr, jGet, jLookup]
        · simp [jGetNum, jGet, jLookup]
      · obtain ⟨r, hres, hstr2, hstr, hnum⟩ := hrpos hn
        refine ⟨r, hres, ?_, hstr, ?_⟩
        · rw [hstr2]
          congr 2
          simp only
          omega
        · rw [hnum]
          congr 1
          push_cast; ring

/-- A `/start` run of the alternate variant with a truthy topic, an
all-success oracle, and at least one configured iteration: status 200,
exactly `N` research and `N` fact-check calls, and a final payload whose
`research` field is the object wrapping the last completion text, not a
string. -/
lemma startV0_ok_spec (o : Oracle) (f : Nat → String) (ho : ∀ k, o k = .ok (f k))
    (tv : JVal) (htv : truthy (some tv) = true) (th : ℚ)
    (body : JVal) (hb : jGet body "topic" = some tv)
    (N : Nat) (hN : 1 ≤ N) :
    ∃ r st', startV0 o N th body = (⟨200, r⟩, st') ∧
      jGetStr2 r "research" "content" = some (f (2 * N - 1)) ∧
      jGetStr r "research" = none ∧
      jGetNum r "iteration" = some (N : Int) ∧
      st'.rCalls = N ∧ st'.fcCalls = N ∧ st'.fcOk = N ∧ st'.k = 2 * N := by
  obtain ⟨res, st', hrun, hr1, hr2, hr3, hr4, _hr0, hrpos⟩ :=
    loopGoV0_ok_spec o f ho tv htv th N 0
      (mkObj [("topic", some tv), ("iteration", some (.num 0))]) none initSt
      (by simp [mkObj, jGet, jLookup]) (by simp [mkObj, jGet, jLookup])
  obtain ⟨r, hres, hstr2, hstr, hnum⟩ := hrpos hN
  subst hres
  refine ⟨r, st', ?_, ?_, hstr, ?_, ?_, ?_, ?_, ?_⟩
  · simp only [startV0, hb]
    rw [hrun]
    simp
  · simpa [initSt] using hstr2
  · simpa [initSt] using hnum
  · simpa [initSt] using hr1
  · simpa [initSt] using hr2
  · simpa [initSt] using hr3
  · simpa [initSt] using hr4

/-- The prompts added by one research fetch: the topic-only prompt when the
topic is truthy, nothing otherwise — independent of the oracle, the prior
state, and every other field of the request body. -/
lemma researchFetch_prompts (o : Oracle) (st : CallSt) (b : JVal) :
    (researchFetch o st b).2.prompts =
      st.prompts ++
        (if truthy (jGet b "topic") then [researchPrompt (jGet b "topic")]
         else []) := by
  unfold researchFetch askAI bump
  cases h : o st.k <;> by_cases ht : truthy (jGet b "topic") <;> simp [h, ht]

/-- The trace of a `/start` run is the trace of its loop. -/
lemma start_snd (o : Oracle) (N : Nat) (body : JVal) :
    (start o N body).2 =
      (loopGo o (jGet body "topic") N 0
        (mkObj [("topic", jGet body "topic"), ("iteration", some (.num 0))])
        none initSt).2 := by
  simp only [start]
  rcases h : loopGo o (jGet body "topic") N 0
      (mkObj [("topic", jGet body "topic"), ("iteration", some (.num 0))])
      none initSt with ⟨res, st⟩
  cases res <;> simp

/-! ### Claims -/

/-- C2 (code behavior at the failing input): with topic `quantum computing`,
`maxIterations = AI_CONFIG.maxIterations = 2`, and the completion client
failing on the second call (the first fact-check) with `rate limited`, the
run does NOT end in a failed state returning that error: `FactCheckerDO`
catches the error, the loop continues, and the handler answers HTTP 200 with
the second pass's fact-check payload. -/
theorem claim_C2_code_behavior :
    (start (fun k => if k = 1 then .err ⟨"rate limited", "stack0"⟩
        else .ok (String.append "text" (toString k))) AIConfigMaxIterations
        (.obj [("topic", .str "quantum computing")])).1.status = 200 ∧
    jGetStr (start (fun k => if k = 1 then .err ⟨"rate limited", "stack0"⟩
        else .ok (String.append "text" (toString k))) AIConfigMaxIterations
        (.obj [("topic", .str "quantum computing")])).1.body "error" = none ∧
    jGetStr (start (fun k => if k = 1 then .err ⟨"rate limited", "stack0"⟩
        else .ok (String.append "text" (toString k))) AIConfigMaxIterations
        (.obj [("topic", .str "quantum computing")])).1.body "research" =
      some "text3" := by
  decide

/-- C3 (counterexample): in the alternate variant's `askAI`, a completion
failure `rate limited` is caught and replaced by the response
`{content: '', error: 'rate limited'}` — empty text — and its caller
`ResearchFetcherDO` answers a 200 payload whose `research.content` is the
empty string: the failure does not propagate to the caller. -/
theorem claim_C3_counterexample :
    (askAIV0 (fun _ => .err ⟨"rate limited", "stack0"⟩) initSt
        (researchPrompt (some (.str "T")))).1 = ⟨"", some "rate limited"⟩ ∧
    (researchFetchV0 (fun _ => .err ⟨"rate limited", "stack0"⟩) initSt
        (.obj [("topic", .str "T")])).1.status = 200 ∧
    jGetStr2 (researchFetchV0 (fun _ => .err ⟨"rate limited", "stack0"⟩) initSt
        (.obj [("topic", .str "T")])).1.body "research" "content" = some "" := by
  decide

/-- C3 (amended): in `src/index.ts`, `askAI` never downgrades an error: it
issues exactly one completion call per invocation (no internal retries), a
failing call propagates exactly the thrown error to the caller, and a
successful call returns exactly the provider's text.  (The alternate
variant's `askAI` instead catches provider errors and returns empty content,
see the counterexample.) -/
theorem claim_C3 (o : Oracle) (st : CallSt) (p : String) :
    (askAI o st p).2.k = st.k + 1 ∧
    (∀ e, o st.k = .err e → (askAI o st p).1 = .error e) ∧
    (∀ t, o st.k = .ok t → (askAI o st p).1 = .ok t) := by
  refine ⟨?_, fun e he => ?_, fun t ht => ?_⟩
  · cases h : o st.k <;> simp [askAI, bump, h]
  · simp [askAI, he]
  · simp [askAI, ht]

/-- C3 witness. -/
theorem claim_C3_witness :
    (askAI (fun _ => .err ⟨"boom", "s"⟩) initSt "p").1 = .error ⟨"boom", "s"⟩ ∧
    (askAI (fun _ => .err ⟨"boom", "s"⟩) initSt "p").2.k = initSt.k + 1 :=
  ⟨(claim_C3 (fun _ => .err ⟨"boom", "s"⟩) initSt "p").2.1 ⟨"boom", "s"⟩ rfl,
   (claim_C3 (fun _ => .err ⟨"boom", "s"⟩) initSt "p").1⟩

/-- C4: if the completion client fails on the very first research call of a
run (with a truthy topic and at least one configured iteration), the `/start`
handler answers the failed state — HTTP 500 with exactly that error's message
— after a single completion call: no fact-check call is ever issued. -/
theorem claim_C4 (o : Oracle) (e : JsError) (tv body : JVal) (N : Nat)
    (hb : jGet body "topic" = some tv) (htv : truthy (some tv) = true)
    (he : o 0 = .err e) (hN : 1 ≤ N) :
    (start o N body).1 = ⟨500, .obj [("error", .str e.message)]⟩ ∧
    (start o N body).2.fcCalls = 0 ∧
    (start o N body).2.k = 1 ∧
    (start o N body).2.prompts = [researchPrompt (some tv)] := by
  rcases N with _ | n
  · omega
  · simp only [start, hb]
    rw [loopGo, researchFetch_err o e initSt
      (mkObj [("topic", some tv), ("iteration", some (.num 0))]) tv
      (by simp [mkObj, jGet, jLookup]) htv he]
    simp [initSt]

/-- C4 witness. -/
theorem claim_C4_witness :
    (start (fun _ => .err ⟨"rate limited", "stack0"⟩) 2
        (.obj [("topic", .str "T")])).1 =
      ⟨500, .obj [("error", .str "rate limited")]⟩ ∧
    (start (fun _ => .err ⟨"rate limited", "stack0"⟩) 2
        (.obj [("topic", .str "T")])).2.fcCalls = 0 ∧
    (start (fun _ => .err ⟨"rate limited", "stack0"⟩) 2
        (.obj [("topic", .str "T")])).2.k = 1 ∧
    (start (fun _ => .err ⟨"rate limited", "stack0"⟩) 2
        (.obj [("topic", .str "T")])).2.prompts =
      [researchPrompt (some (.str "T"))] :=
  claim_C4 (fun _ => .err ⟨"rate limited", "stack0"⟩) ⟨"rate limited", "stack0"⟩
    (.str "T") (.obj [("topic", .str "T")]) 2 rfl rfl rfl (by decide)

/-- C6 (code behavior at the failing input): with `maxIterations = 0` no
configuration validation rejects the run in either variant — the loop body
never executes, no completion call is made, and the handler silently answers
HTTP 200 with body `null`. -/
theorem claim_C6_code_behavior (o : Oracle) (th : ℚ) (body : JVal) :
    startV0 o 0 th body = (⟨200, .null⟩, initSt) ∧
    start o 0 body = (⟨200, .null⟩, initSt) :=
  ⟨rfl, rfl⟩

/-- C1 (counterexample): in the run with topic `T`, `maxIterations = 2`, and
the completion client failing exactly on the first fact-check call, the
`iteration` value in the returned result (2) does not equal the number of
completed fact-check passes (1) — the failed pass is skipped by the
fact-check counter but not by the loop counter the payload reports. -/
theorem claim_C1_counterexample :
    ¬ (jGetNum (start (fun k => if k = 1 then .err ⟨"rate limited", "stack0"⟩
          else .ok ("text" ++ toString k)) 2
          (.obj [("topic", .str "T")])).1.body "iteration" =
        some ((start (fun k => if k = 1 then .err ⟨"rate limited", "stack0"⟩
          else .ok ("text" ++ toString k)) 2
          (.obj [("topic", .str "T")])).2.fcOk : Int)) := by
  decide

/-- C1 (amended): for every oracle the `/start` loop of `src/index.ts`
performs at most `N` research and at most `N` fact-check completion calls,
and in every run in which all completion calls succeed (truthy topic,
`N ≥ 1`) the loop performs exactly `N` passes, every fact-check pass
completes, and the returned `iteration` equals the number of completed
fact-check passes, which is exactly `N`. -/
theorem claim_C1 (o : Oracle) (N : Nat) (body : JVal) :
    ((start o N body).2.rCalls ≤ N ∧ (start o N body).2.fcCalls ≤ N) ∧
    (∀ (f : Nat → String) (tv : JVal), (∀ k, o k = .ok (f k)) →
      truthy (some tv) = true → jGet body "topic" = some tv → 1 ≤ N →
      (start o N body).1.status = 200 ∧
      (start o N body).2.rCalls = N ∧
      (start o N body).2.fcOk = N ∧
      jGetNum (start o N body).1.body "iteration" =
        some ((start o N body).2.fcOk : Int) ∧
      jGetNum (start o N body).1.body "iteration" = some (N : Int)) := by
  constructor
  · rw [start_snd]
    have h := loopGo_counts o (jGet body "topic") N 0
      (mkObj [("topic", jGet body "topic"), ("iteration", some (.num 0))])
      none initSt
    simpa [initSt] using h
  · intro f tv ho htv hb hN
    obtain ⟨r, st', hrun, hstr, hnum, h1, h2, h3, h4⟩ :=
      start_ok_spec o f ho tv htv body hb N hN
    rw [hrun]
    exact ⟨rfl, h1, h3, by rw [hnum, h3], hnum⟩

/-- C1 witness. -/
theorem claim_C1_witness :
    ((start (fun _ => .ok "x") 2 (.obj [("topic", .str "T")])).2.rCalls ≤ 2 ∧
     (start (fun _ => .ok "x") 2 (.obj [("topic", .str "T")])).2.fcCalls ≤ 2) ∧
    ((start (fun _ => .ok "x") 2 (.obj [("topic", .str "T")])).1.status = 200 ∧
     (start (fun _ => .ok "x") 2 (.obj [("topic", .str "T")])).2.rCalls = 2 ∧
     (start (fun _ => .ok "x") 2 (.obj [("topic", .str "T")])).2.fcOk = 2 ∧
     jGetNum (start (fun _ => .ok "x") 2
         (.obj [("topic", .str "T")])).1.body "iteration" =
       some ((start (fun _ => .ok "x") 2
         (.obj [("topic", .str "T")])).2.fcOk : Int) ∧
     jGetNum (start (fun _ => .ok "x") 2
         (.obj [("topic", .str "T")])).1.body "iteration" = some (2 : Int)) :=
  ⟨(claim_C1 (fun _ => .ok "x") 2 (.obj [("topic", .str "T")])).1,
   (claim_C1 (fun _ => .ok "x") 2 (.obj [("topic", .str "T")])).2
     (fun _ => "x") (.str "T") (fun _ => rfl) rfl rfl (by decide)⟩

/-- C5: in the alternate variant, whose stages never supply a `confidence`
value, the threshold check is skipped in every pass (for every threshold
value), so with `maxIterations = 3` and an always-succeeding completion
client exactly 3 research and 3 fact-check calls occur and the run reaches
the done state: HTTP 200 with the third pass's payload (`iteration = 3`). -/
theorem claim_C5 (o : Oracle) (f : Nat → String) (tv body : JVal) (th : ℚ)
    (ho : ∀ k, o k = .ok (f k)) (htv : truthy (some tv) = true)
    (hb : jGet body "topic" = some tv) :
    (startV0 o 3 th body).1.status = 200 ∧
    (startV0 o 3 th body).2.rCalls = 3 ∧
    (startV0 o 3 th body).2.fcCalls = 3 ∧
    jGetNum (startV0 o 3 th body).1.body "iteration" = some (3 : Int) := by
  obtain ⟨r, st', hrun, hstr2, hstr, hnum, h1, h2, h3, h4⟩ :=
    startV0_ok_spec o f ho tv htv th body hb 3 (by decide)
  rw [hrun]
  exact ⟨rfl, h1, h2, by simpa using hnum⟩

/-- C5 witness. -/
theorem claim_C5_witness :
    (startV0 (fun _ => .ok "x") 3 (9/10 : ℚ)
        (.obj [("topic", .str "T")])).1.status = 200 ∧
    (startV0 (fun _ => .ok "x") 3 (9/10 : ℚ)
        (.obj [("topic", .str "T")])).2.rCalls = 3 ∧
    (startV0 (fun _ => .ok "x") 3 (9/10 : ℚ)
        (.obj [("topic", .str "T")])).2.fcCalls = 3 ∧
    jGetNum (startV0 (fun _ => .ok "x") 3 (9/10 : ℚ)
        (.obj [("topic", .str "T")])).1.body "iteration" = some (3 : Int) :=
  claim_C5 (fun _ => .ok "x") (fun _ => "x") (.str "T")
    (.obj [("topic", .str "T")]) (9/10 : ℚ) (fun _ => rfl) rfl rfl

/-- C7 (counterexample): in an all-success run with topic `T` and
`maxIterations = 2`, the research prompt of the second pass is the same
fresh topic-only prompt as the first pass's, even though the prior
fact-checked research (`text1`) was available in the request body sent to
the research durable object. -/
theorem claim_C7_counterexample :
    (start (fun k => .ok ("text" ++ toString k)) 2
        (.obj [("topic", .str "T")])).2.prompts.get? 2 =
      some (researchPrompt (some (.str "T"))) ∧
    (start (fun k => .ok ("text" ++ toString k)) 2
        (.obj [("topic", .str "T")])).2.prompts.get? 2 =
      (start (fun k => .ok ("text" ++ toString k)) 2
        (.obj [("topic", .str "T")])).2.prompts.get? 0 ∧
    jGetStr ((start (fun k => .ok ("text" ++ toString k)) 2
        (.obj [("topic", .str "T")])).2.bodies.getD 1 .null) "research" =
      some "text1" := by
  decide

/-- C7 (amended): the prior fact-checked research is carried in the request
body of every later research call, but `ResearchFetcherDO` ignores it: the
prompt it issues depends only on the body's `topic` field (so any two bodies
with the same topic produce the same prompts), and whenever the topic is
truthy that prompt is the fixed topic-only template.  Prior research is
incorporated only by the fact-check prompt. -/
theorem claim_C7 (o₁ o₂ : Oracle) (st₁ st₂ : CallSt) (b₁ b₂ : JVal)
    (h : jGet b₁ "topic" = jGet b₂ "topic") :
    (List.drop st₁.prompts.length (researchFetch o₁ st₁ b₁).2.prompts =
      List.drop st₂.prompts.length (researchFetch o₂ st₂ b₂).2.prompts) ∧
    (truthy (jGet b₁ "topic") = true →
      List.drop st₁.prompts.length (researchFetch o₁ st₁ b₁).2.prompts =
        [researchPrompt (jGet b₁ "topic")]) ∧
    jGetStr ((start (fun k => .ok ("text" ++ toString k)) 2
        (.obj [("topic", .str "T")])).2.bodies.getD 1 .null) "research" =
      some "text1" := by
  refine ⟨?_, fun ht => ?_, by decide⟩
  · rw [researchFetch_prompts, researchFetch_prompts, h, List.drop_left,
      List.drop_left]
  · rw [researchFetch_prompts, List.drop_left, if_pos ht]

/-- C7 witness. -/
theorem claim_C7_witness :
    (List.drop initSt.prompts.length
        (researchFetch (fun _ => .ok "a") initSt
          (.obj [("topic", .str "T"), ("research", .str "prior")])).2.prompts =
      List.drop initSt.prompts.length
        (researchFetch (fun _ => .ok "b") initSt
          (.obj [("topic", .str "T")])).2.prompts) ∧
    (List.drop initSt.prompts.length
        (researchFetch (fun _ => .ok "a") initSt
          (.obj [("topic", .str "T"), ("research", .str "prior")])).2.prompts =
      [researchPrompt (jGet
        (.obj [("topic", .str "T"), ("research", .str "prior")]) "topic")]) :=
  ⟨(claim_C7 (fun _ => .ok "a") (fun _ => .ok "b") initSt initSt
      (.obj [("topic", .str "T"), ("research", .str "prior")])
      (.obj [("topic", .str "T")]) rfl).1,
   (claim_C7 (fun _ => .ok "a") (fun _ => .ok "b") initSt initSt
      (.obj [("topic", .str "T"), ("research", .str "prior")])
      (.obj [("topic", .str "T")]) rfl).2.1 rfl⟩

/-- C8: the prompt text issued by `ResearchFetcherDO` is a pure function of
its declared inputs: any two invocations — with different oracles and
different accumulated state — whose request bodies agree on `topic` and
`iteration` add the same prompt text to the trace. -/
theorem claim_C8 (o₁ o₂ : Oracle) (st₁ st₂ : CallSt) (b₁ b₂ : JVal)
    (htopic : jGet b₁ "topic" = jGet b₂ "topic")
    (_hiter : jGet b₁ "iteration" = jGet b₂ "iteration") :
    List.drop st₁.prompts.length (researchFetch o₁ st₁ b₁).2.prompts =
      List.drop st₂.prompts.length (researchFetch o₂ st₂ b₂).2.prompts := by
  rw [researchFetch_prompts, researchFetch_prompts, htopic, List.drop_left,
    List.drop_left]

/-- C8 witness. -/
theorem claim_C8_witness :
    List.drop initSt.prompts.length
        (researchFetch (fun _ => .ok "a") initSt
          (.obj [("topic", .str "T"), ("iteration", .num 0)])).2.prompts =
      List.drop initSt.prompts.length
        (researchFetch (fun _ => .err ⟨"boom", "s"⟩) initSt
          (.obj [("topic", .str "T"), ("iteration", .num 0),
                 ("research", .str "other")])).2.prompts :=
  claim_C8 (fun _ => .ok "a") (fun _ => .err ⟨"boom", "s"⟩) initSt initSt
    (.obj [("topic", .str "T"), ("iteration", .num 0)])
    (.obj [("topic", .str "T"), ("iteration", .num 0),
           ("research", .str "other")]) rfl rfl

/-- C9 (counterexample): a successful run of the alternate variant's entry
point (topic `T`, `maxIterations = 1`, all completion calls succeeding)
returns a payload whose `research` field is NOT a string: it is the
`AIResponse` object wrapping the completion text under `content`. -/
theorem claim_C9_counterexample :
    (startV0 (fun k => .ok ("text" ++ toString k)) 1 (9/10 : ℚ)
        (.obj [("topic", .str "T")])).1.status = 200 ∧
    jGetStr (startV0 (fun k => .ok ("text" ++ toString k)) 1 (9/10 : ℚ)
        (.obj [("topic", .str "T")])).1.body "research" = none ∧
    jGetStr2 (startV0 (fun k => .ok ("text" ++ toString k)) 1 (9/10 : ℚ)
        (.obj [("topic", .str "T")])).1.body "research" "content" =
      some "text1" := by
  decide

/-- C9 (amended): on every successful run (truthy topic, all completion
calls succeeding, at least one configured iteration) the `src/index.ts`
entry point returns `research` as a string — the final completion text —
and `iteration` as the integer `N`; the alternate variant instead returns
`research` as the object wrapping the final completion text under
`content`, not a string. -/
theorem claim_C9 (o : Oracle) (f : Nat → String) (tv body : JVal) (th : ℚ)
    (N : Nat) (ho : ∀ k, o k = .ok (f k)) (htv : truthy (some tv) = true)
    (hb : jGet body "topic" = some tv) (hN : 1 ≤ N) :
    (jGetStr (start o N body).1.body "research" = some (f (2 * N - 1)) ∧
     jGetNum (start o N body).1.body "iteration" = some (N : Int)) ∧
    (jGetStr (startV0 o N th body).1.body "research" = none ∧
     jGetStr2 (startV0 o N th body).1.body "research" "content" =
       some (f (2 * N - 1))) := by
  obtain ⟨r, st', hrun, hstr, hnum, _h1, _h2, _h3, _h4⟩ :=
    start_ok_spec o f ho tv htv body hb N hN
  obtain ⟨r0, st0', hrun0, hstr20, hstr0, _hnum0, _g1, _g2, _g3, _g4⟩ :=
    startV0_ok_spec o f ho tv htv th body hb N hN
  rw [hrun, hrun0]
  exact ⟨⟨hstr, hnum⟩, ⟨hstr0, hstr20⟩⟩

/-- C9 witness. -/
theorem claim_C9_witness :
    (jGetStr (start (fun _ => .ok "x") 1
        (.obj [("topic", .str "T")])).1.body "research" = some "x" ∧
     jGetNum (start (fun _ => .ok "x") 1
        (.obj [("topic", .str "T")])).1.body "iteration" = some (1 : Int)) ∧
    (jGetStr (startV0 (fun _ => .ok "x") 1 (9/10 : ℚ)
        (.obj [("topic", .str "T")])).1.body "research" = none ∧
     jGetStr2 (startV0 (fun _ => .ok "x") 1 (9/10 : ℚ)
        (.obj [("topic", .str "T")])).1.body "research" "content" =
       some "x") :=
  claim_C9 (fun _ => .ok "x") (fun _ => "x") (.str "T")
    (.obj [("topic", .str "T")]) (9/10 : ℚ) 1 (fun _ => rfl) rfl rfl
    (by decide)

/-- C10: when a fact-check completion call fails, `FactCheckerDO.fetch`
catches the error and answers the payload `{error, stack}` with status 500
instead of rejecting; the `/start` handler does not abort: in the concrete
run (topic `T`, `maxIterations = 2`) failing on the first fact-check, the
loop still sends a second research request — whose body carries no
`research` field and `iteration = 1` — and the run ends with HTTP 200; and
when the failure hits the last fact-check, the error payload itself is
returned to the client with HTTP status 200. -/
theorem claim_C10 :
    (∀ (o : Oracle) (st : CallSt) (b : JVal) (e : JsError), o st.k = .err e →
      (factCheckFetch o st b).1 =
        ⟨500, .obj [("error", .str e.message), ("stack", .str e.stack)]⟩) ∧
    ((start (fun k => if k = 1 then .err ⟨"rate limited", "stack0"⟩
        else .ok ("text" ++ toString k)) 2
        (.obj [("topic", .str "T")])).2.bodies.length = 2 ∧
     (jGet ((start (fun k => if k = 1 then .err ⟨"rate limited", "stack0"⟩
        else .ok ("text" ++ toString k)) 2
        (.obj [("topic", .str "T")])).2.bodies.getD 1 .null) "research").isNone =
       true ∧
     jGetNum ((start (fun k => if k = 1 then .err ⟨"rate limited", "stack0"⟩
        else .ok ("text" ++ toString k)) 2
        (.obj [("topic", .str "T")])).2.bodies.getD 1 .null) "iteration" =
       some (1 : Int) ∧
     (start (fun k => if k = 1 then .err ⟨"rate limited", "stack0"⟩
        else .ok ("text" ++ toString k)) 2
        (.obj [("topic", .str "T")])).1.status = 200) ∧
    ((start (fun k => if k = 3 then .err ⟨"rate limited", "stack0"⟩
        else .ok ("text" ++ toString k)) 2
        (.obj [("topic", .str "T")])).1.status = 200 ∧
     jGetStr (start (fun k => if k = 3 then .err ⟨"rate limited", "stack0"⟩
        else .ok ("text" ++ toString k)) 2
        (.obj [("topic", .str "T")])).1.body "error" = some "rate limited" ∧
     jGetStr (start (fun k => if k = 3 then .err ⟨"rate limited", "stack0"⟩
        else .ok ("text" ++ toString k)) 2
        (.obj [("topic", .str "T")])).1.body "stack" = some "stack0") := by
  refine ⟨fun o st b e he => ?_, by decide, by decide⟩
  rw [factCheckFetch_err o e st b he]

/-- C10 witness. -/
theorem claim_C10_witness :
    (factCheckFetch (fun _ => .err ⟨"boom", "s"⟩) initSt (.obj [])).1 =
      ⟨500, .obj [("error", .str "boom"), ("stack", .str "s")]⟩ :=
  claim_C10.1 (fun _ => .err ⟨"boom", "s"⟩) initSt (.obj []) ⟨"boom", "s"⟩ rfl
